import Mathlib

/-!
Verification of the autonomous-drone learning engine
(`src/ai/TrainingEnvironment.ts`, `NeuralNetwork`, `ReinforcementLearning`,
`ImitationLearning`, and the configuration defaults in `utils/simulation.ts`).

The TypeScript classes are embedded shallowly: mutable class state becomes
explicit state records, JavaScript numbers become real numbers, stochastic
primitives (`Math.random()`-driven dropout masks and batch sampling) become
explicit function/list parameters, and fallible methods return `Except`.
-/

namespace DroneRL

noncomputable section

/-- A stored transition (`Experience` in `types/ai.ts`). -/
structure Experience where
  state : List ℝ
  action : ℕ
  reward : ℝ
  nextState : List ℝ
  done : Bool
  timestamp : ℕ

/-- The replay buffer record (`ReplayBuffer` in `types/ai.ts`): a growable
array of experiences, a fixed capacity, and a write cursor.  Generic in the
element type so the ring-buffer facts can be stated for any payload. -/
structure ReplayBuffer (α : Type) where
  experiences : List α
  maxSize : ℕ
  currentIndex : ℕ

/-- `ReinforcementLearning.storeExperience`: push while below capacity,
otherwise overwrite the slot at `currentIndex` and advance the cursor
modulo `maxSize`. -/
def ReplayBuffer.storeExperience {α : Type} (b : ReplayBuffer α) (e : α) : ReplayBuffer α :=
  if b.experiences.length < b.maxSize then
    { b with experiences := b.experiences ++ [e] }
  else
    { b with experiences := b.experiences.set b.currentIndex e,
             currentIndex := (b.currentIndex + 1) % b.maxSize }

/-- The buffer as the `ReinforcementLearning` constructor creates it:
empty, with the configured capacity and cursor 0. -/
def ReplayBuffer.empty (α : Type) (maxSize : ℕ) : ReplayBuffer α :=
  { experiences := [], maxSize := maxSize, currentIndex := 0 }

/-- A sequence of `storeExperience` calls. -/
def ReplayBuffer.storeAll {α : Type} (b : ReplayBuffer α) (es : List α) : ReplayBuffer α :=
  es.foldl ReplayBuffer.storeExperience b

structure NeuralNetworkConfig where
  inputSize : ℕ
  hiddenLayers : List ℕ
  outputSize : ℕ
  learningRate : ℝ
  dropout : ℝ

structure NetworkWeights where
  weights : List (List (List ℝ))
  biases : List (List ℝ)

/-- One dropout decision per (hidden layer index, neuron index). -/
abbrev Mask : Type := ℕ → ℕ → Bool

/-- The network object: configuration, weights, and the activation cache the
forward pass stores for use by `backward`. -/
structure NeuralNetwork where
  config : NeuralNetworkConfig
  weights : NetworkWeights
  activations : List (List ℝ)

def relu (x : ℝ) : ℝ := max 0 x

def reluDerivative (x : ℝ) : ℝ := if 0 < x then 1 else 0

/-- `sum += currentActivation[k] * weights[i][j][k]` (equal row/activation
lengths are guaranteed by well-formed weights). -/
def dot (row act : List ℝ) : ℝ := (List.zipWith (fun a w => a * w) act row).sum

/-- `NeuralNetwork.softmax`: numerically-stable softmax, subtracting the
maximum before exponentiating. -/
def softmax (values : List ℝ) : List ℝ :=
  let maxVal := values.foldr max (values.headD 0)
  let expValues := values.map (fun v => Real.exp (v - maxVal))
  let total := expValues.sum
  expValues.map (fun v => v / total)

/-- One hidden layer: per neuron, bias plus dot product, ReLU, then dropout. -/
def hiddenLayerPass (mask : Mask) (li : ℕ) (w : List (List ℝ)) (b : List ℝ)
    (act : List ℝ) : List ℝ :=
  (w.zip b).enum.map (fun ja =>
    let a := relu (ja.2.2 + dot ja.2.1 act)
    if mask li ja.1 then 0 else a)

/-- The output layer's pre-softmax sums. -/
def linearLayer (w : List (List ℝ)) (b : List ℝ) (act : List ℝ) : List ℝ :=
  (w.zip b).map (fun wb => wb.2 + dot wb.1 act)

/-- The layer loop of `forward`: every layer but the last is a hidden layer
(ReLU + dropout); the last gets the softmax.  Returns the pushed activation
lists together with the final output. -/
def forwardLayers (mask : Mask) : ℕ → List (List (List ℝ) × List ℝ) → List ℝ →
    List (List ℝ) × List ℝ
  | _li, [], act => ([], act)
  | _li, [wb], act =>
      let out := softmax (linearLayer wb.1 wb.2 act)
      ([out], out)
  | li, wb :: rest, act =>
      let next := hiddenLayerPass mask li wb.1 wb.2 act
      let acts := forwardLayers mask (li + 1) rest next
      (next :: acts.1, acts.2)

/-- `NeuralNetwork.forward`: rejects inputs of the wrong length, otherwise
runs the layer loop, caching `[input, hidden…, output]` in `activations`. -/
def NeuralNetwork.forward (net : NeuralNetwork) (mask : Mask) (input : List ℝ) :
    Except String (NeuralNetwork × List ℝ) :=
  if input.length ≠ net.config.inputSize then
    .error "Input size mismatch"
  else
    let layers := net.weights.weights.zip net.weights.biases
    let acts := forwardLayers mask 0 layers input
    .ok ({ net with activations := input :: acts.1 }, acts.2)

/-- Shape discipline of `initializeWeights`: layer `i` maps `dims[i-1]`
(resp. `inputSize`) activations to `dims[i]` neurons. -/
def layersWf : ℕ → List ℕ → List (List (List ℝ) × List ℝ) → Bool
  | _, [], [] => true
  | nIn, d :: ds, wb :: ls =>
      wb.1.length == d && wb.2.length == d &&
      wb.1.all (fun row => row.length == nIn) && layersWf d ds ls
  | _, _, _ => false

def NetworkWeights.wf (W : NetworkWeights) (cfg : NeuralNetworkConfig) : Bool :=
  W.weights.length == W.biases.length &&
  layersWf cfg.inputSize (cfg.hiddenLayers ++ [cfg.outputSize]) (W.weights.zip W.biases)

/-! ### Backward pass and weight update (`NeuralNetwork.backward`) -/

def sumSquares (l : List ℝ) : ℝ := (l.map (fun x => x * x)).sum

/-- Errors propagated to the previous layer:
`nextErrors[k] = Σ_j currentErrors[j] * weights[layer][j][k]`. -/
def backErrors (w : List (List ℝ)) (errs : List ℝ) (n : ℕ) : List ℝ :=
  (List.range n).map (fun k => ((errs.zip w).map (fun er => er.1 * er.2.getD k 0)).sum)

/-- Weight gradients for one layer: `gradients[layer][j][k] = errs[j] * acts[k]`. -/
def layerWeightGrads (w : List (List ℝ)) (errs acts : List ℝ) : List (List ℝ) :=
  (List.range w.length).map (fun j => acts.map (fun a => errs.getD j 0 * a))

/-- Bias gradients for one layer: `biasGradients[layer][j] = errs[j]`. -/
def layerBiasGrads (w : List (List ℝ)) (errs : List ℝ) : List ℝ :=
  (List.range w.length).map (fun j => errs.getD j 0)

/-- The backpropagation loop of `backward`, taking the weight matrices and
the per-layer input activations in reverse (output layer first).  Errors
flowing past a non-bottom layer are gated by the ReLU derivative of that
layer's input activations.  Returns weight and bias gradients, output
layer first. -/
def backprop : List (List (List ℝ)) → List (List ℝ) → List ℝ →
    List (List (List ℝ)) × List (List ℝ)
  | [], _, _ => ([], [])
  | w :: wsRest, acts, errs =>
      let a := acts.headD []
      let wg := layerWeightGrads w errs a
      let bg := layerBiasGrads w errs
      let nextE := backErrors w errs a.length
      let gatedE := if wsRest.isEmpty then nextE
        else List.zipWith (fun e x => e * reluDerivative x) nextE a
      let rest := backprop wsRest acts.tail gatedE
      (wg :: rest.1, bg :: rest.2)

/-- `updateWeights`: global L2 gradient norm, clipping factor
`min(1, 1/norm)`, then `weight -= learningRate * gradient * clip`. -/
def updateWeights (W : NetworkWeights) (grads : List (List (List ℝ)))
    (biasGrads : List (List ℝ)) (lr : ℝ) : NetworkWeights :=
  let norm2 := (biasGrads.map sumSquares).sum +
    (grads.map (fun layer => (layer.map sumSquares).sum)).sum
  let gradientNorm := Real.sqrt norm2
  let clipScale := if 1 < gradientNorm then 1 / gradientNorm else 1
  { weights := (W.weights.zip grads).map (fun lg =>
      (lg.1.zip lg.2).map (fun rg =>
        (rg.1.zip rg.2).map (fun xg => xg.1 - lr * xg.2 * clipScale))),
    biases := (W.biases.zip biasGrads).map (fun lg =>
      (lg.1.zip lg.2).map (fun xg => xg.1 - lr * xg.2 * clipScale)) }

/-- `NeuralNetwork.backward`: output error `output - target`, mean-squared
loss, backpropagation, clipped update.  Always uses the configured learning
rate (every call site omits the optional rate). -/
def NeuralNetwork.backward (net : NeuralNetwork) (targetOutput : List ℝ) :
    NeuralNetwork × ℝ :=
  let outputActivations := net.activations.getLastD []
  let outputErrors := (outputActivations.zip targetOutput).map (fun ot => ot.1 - ot.2)
  let loss := sumSquares outputErrors / (outputErrors.length : ℝ)
  let r := backprop net.weights.weights.reverse net.activations.dropLast.reverse outputErrors
  ({ net with weights :=
      updateWeights net.weights r.1.reverse r.2.reverse net.config.learningRate }, loss)

/-- `getWeights` returns a deep copy; in the pure model this is the value
itself. -/
def NeuralNetwork.getWeights (net : NeuralNetwork) : NetworkWeights := net.weights

/-- `setWeights` installs a deep copy of the given weights. -/
def NeuralNetwork.setWeights (net : NeuralNetwork) (w : NetworkWeights) : NeuralNetwork :=
  { net with weights := w }

/-! ### ReinforcementLearning (DQN agent) -/

structure TrainingConfig where
  episodeLength : ℕ
  maxEpisodes : ℕ
  epsilon : ℝ
  epsilonDecay : ℝ
  epsilonMin : ℝ
  gamma : ℝ
  batchSize : ℕ
  targetUpdateFrequency : ℕ
  replayBufferSize : ℕ

structure TrainingMetrics where
  episode : ℕ
  totalReward : ℝ
  episodeLength : ℕ
  epsilon : ℝ
  averageReward : ℝ
  collisions : ℕ
  explorationSteps : ℕ
  exploitationSteps : ℤ
  loss : ℝ

/-- The mutable state of the `ReinforcementLearning` class. -/
structure ReinforcementLearning where
  mainNetwork : NeuralNetwork
  targetNetwork : NeuralNetwork
  replayBuffer : ReplayBuffer Experience
  config : TrainingConfig
  metrics : List TrainingMetrics
  currentEpisode : ℕ
  totalSteps : ℕ

def ReinforcementLearning.storeExperience (st : ReinforcementLearning)
    (e : Experience) : ReinforcementLearning :=
  { st with replayBuffer := st.replayBuffer.storeExperience e }

/-- `Math.max(...values)` over a nonempty list (every use site passes the
9 Q-values). -/
def listMax (l : List ℝ) : ℝ := l.foldr max (l.headD 0)

/-- `updateTargetNetwork`: hard-copy the main network's weights into the
target network. -/
def ReinforcementLearning.updateTargetNetwork (st : ReinforcementLearning) :
    ReinforcementLearning :=
  { st with targetNetwork := st.targetNetwork.setWeights st.mainNetwork.getWeights }

/-- One experience of the training batch: current Q-values from the main
network, Bellman target from the target network (plain reward on terminal
transitions), supervision of the taken action's slot only, backward pass. -/
def trainOne (gamma : ℝ) (maskM maskT : Mask)
    (acc : NeuralNetwork × NeuralNetwork × ℝ) (e : Experience) :
    Except String (NeuralNetwork × NeuralNetwork × ℝ) := do
  let fm ← acc.1.forward maskM e.state
  if e.done then
    let targetOutput := fm.2.set e.action e.reward
    let bw := fm.1.backward targetOutput
    pure (bw.1, acc.2.1, acc.2.2 + bw.2)
  else
    let ft ← acc.2.1.forward maskT e.nextState
    let targetQValue := e.reward + gamma * listMax ft.2
    let targetOutput := fm.2.set e.action targetQValue
    let bw := fm.1.backward targetOutput
    pure (bw.1, ft.1, acc.2.2 + bw.2)

/-- `ReinforcementLearning.train`.  The `Math.random()`-driven recency-biased
index draws of `sampleBatch` are abstracted into the `batchIdx` parameter
(the unique indices the sampling loop produced), and the dropout draws of the
per-experience forward passes into `masksM`/`masksT`. -/
def ReinforcementLearning.train (st : ReinforcementLearning) (batchIdx : List ℕ)
    (masksM masksT : ℕ → Mask) : Except String (ReinforcementLearning × ℝ) :=
  if st.replayBuffer.experiences.length < st.config.batchSize then
    .ok (st, 0)
  else
    match (batchIdx.filterMap (fun i => st.replayBuffer.experiences[i]?)).enum.foldlM
        (fun acc ie => trainOne st.config.gamma (masksM ie.1) (masksT ie.1) acc ie.2)
        (st.mainNetwork, st.targetNetwork, (0 : ℝ)) with
    | .error msg => .error msg
    | .ok res =>
        let st1 := { st with mainNetwork := res.1, targetNetwork := res.2.1,
                             totalSteps := st.totalSteps + 1 }
        let st2 := if st1.totalSteps % st.config.targetUpdateFrequency = 0
          then st1.updateTargetNetwork else st1
        .ok (st2, res.2.2 /
          ((batchIdx.filterMap (fun i => st.replayBuffer.experiences[i]?)).length : ℝ))

/-! ### Model persistence (`saveModel` / `loadModel`)

`JSON.stringify`/`JSON.parse` round-trip plain numeric structures exactly,
so the serialized blob is modelled by its parse result: either a parse
failure, or an object whose fields may individually be absent
(`undefined`).  `setWeights` deep-copies via a JSON round trip, which
throws exactly when its argument is `undefined` (absent field). -/

inductive ModelInput where
  | unparseable : ModelInput
  | parsed (mainNetwork targetNetwork : Option NetworkWeights)
      (networkConfig : Option NeuralNetworkConfig)
      (trainingConfig : Option TrainingConfig)
      (episode totalSteps : Option ℕ)
      (metrics : Option (List TrainingMetrics)) : ModelInput

/-- `saveModel`: serialize both networks' weights, the configurations, the
episode/step counters and the last 100 metrics (`metrics.slice(-100)`). -/
def ReinforcementLearning.saveModel (st : ReinforcementLearning) : ModelInput :=
  .parsed (some st.mainNetwork.getWeights) (some st.targetNetwork.getWeights)
    (some st.mainNetwork.config) (some st.config)
    (some st.currentEpisode) (some st.totalSteps)
    (some (st.metrics.drop (st.metrics.length - 100)))

/-- `loadModel`: parse, then sequentially `setWeights` on the main and target
networks and restore counters/metrics (`data.episode || 0` etc.).  Any throw
is caught and re-thrown as `Invalid model data`; mutations made before the
throw stay (the JS method mutates `this` field by field). -/
def ReinforcementLearning.loadModel (st : ReinforcementLearning) (input : ModelInput) :
    ReinforcementLearning × Option String :=
  match input with
  | .unparseable => (st, some "Invalid model data")
  | .parsed mw tw _nc _tc ep ts ms =>
    match mw with
    | none => (st, some "Invalid model data")
    | some w =>
      match tw with
      | none => ({ st with mainNetwork := st.mainNetwork.setWeights w },
                 some "Invalid model data")
      | some tws =>
          ({ st with mainNetwork := st.mainNetwork.setWeights w,
                     targetNetwork := st.targetNetwork.setWeights tws,
                     currentEpisode := ep.getD 0,
                     totalSteps := ts.getD 0,
                     metrics := ms.getD [] }, none)

def witnessConfig : NeuralNetworkConfig :=
  { inputSize := 2, hiddenLayers := [], outputSize := 2, learningRate := 1 / 2, dropout := 0 }

def witnessWeights : NetworkWeights :=
  { weights := [[[1, 0], [0, 1]]], biases := [[0, 0]] }

def witnessNet : NeuralNetwork :=
  { config := witnessConfig, weights := witnessWeights, activations := [] }

/-- `getDefaultTrainingConfig` from `utils/simulation.ts`. -/
def getDefaultTrainingConfig : TrainingConfig :=
  { episodeLength := 3000, maxEpisodes := 100000, epsilon := 0.95,
    epsilonDecay := 0.9998, epsilonMin := 0.05, gamma := 0.99,
    batchSize := 32, targetUpdateFrequency := 100, replayBufferSize := 100000 }

def witnessAgent : ReinforcementLearning :=
  { mainNetwork := witnessNet, targetNetwork := witnessNet,
    replayBuffer := ReplayBuffer.empty Experience 100000,
    config := getDefaultTrainingConfig, metrics := [],
    currentEpisode := 0, totalSteps := 0 }

def wMask : Mask := fun _ _ => false

def wExpDone : Experience :=
  { state := [0, 0], action := 0, reward := 1, nextState := [0, 0],
    done := true, timestamp := 0 }

def wFwd : List (List ℝ) × List ℝ :=
  forwardLayers wMask 0 (witnessWeights.weights.zip witnessWeights.biases) [0, 0]

def wNet1 : NeuralNetwork := { witnessNet with activations := [0, 0] :: wFwd.1 }

def witnessWeightsB : NetworkWeights :=
  { weights := [[[2, 3], [4, 5]]], biases := [[6, 7]] }

def witnessAgentB : ReinforcementLearning :=
  { witnessAgent with mainNetwork := { witnessNet with weights := witnessWeightsB } }

def witnessAgentSync : ReinforcementLearning :=
  { witnessAgent with config :=
      { getDefaultTrainingConfig with batchSize := 0, targetUpdateFrequency := 1 } }

/-! ### TrainingEnvironment (`src/ai/TrainingEnvironment.ts`) -/

structure Vec3 where
  x : ℝ
  y : ℝ
  z : ℝ

def Vec3.sub (a b : Vec3) : Vec3 := ⟨a.x - b.x, a.y - b.y, a.z - b.z⟩

/-- three.js `Vector3.length()`. -/
def Vec3.length (v : Vec3) : ℝ := Real.sqrt (v.x ^ 2 + v.y ^ 2 + v.z ^ 2)

def Vec3.distanceTo (a b : Vec3) : ℝ := (a.sub b).length

/-- three.js `normalize()` divides by `length || 1`, so the zero vector
stays zero. -/
def Vec3.normalizeJs (v : Vec3) : Vec3 :=
  ⟨v.x / (if v.length = 0 then 1 else v.length),
   v.y / (if v.length = 0 then 1 else v.length),
   v.z / (if v.length = 0 then 1 else v.length)⟩

structure LiDARReading where
  angle : ℝ
  distance : ℝ

/-- The telemetry snapshot consumed by the engine.  An array entry can be
absent (`undefined`, handled by `?.` in the source), modelled as `none`. -/
structure DroneState where
  position : Vec3
  rotation : Vec3
  velocity : Vec3
  isFlying : Bool
  isLanded : Bool
  isDead : Bool
  missionCompleted : Bool
  throttle : ℝ
  battery : ℝ
  damage : ℝ
  enginePower : ℝ
  lidarReadings : List (Option LiDARReading)
  targetPosition : Vec3
  distanceToTarget : ℝ

/-- `reading?.distance || maxLidarRange`: an absent reading, or a reading
whose distance is exactly 0 (falsy), counts as the 50 m maximum range. -/
def d50 (r : Option LiDARReading) : ℝ :=
  match r with
  | some rd => if rd.distance = 0 then 50 else rd.distance
  | none => 50

/-- `reading?.distance || 0`, the default used for the maximum indicator. -/
def d0 (r : Option LiDARReading) : ℝ :=
  match r with
  | some rd => if rd.distance = 0 then 0 else rd.distance
  | none => 0

/-- `Math.min(...)` over a list; every use site passes a nonempty list
(on the empty list JS would give `Infinity`, which the real-valued model
does not represent — no theorem takes an empty reading slice there). -/
def listMin (l : List ℝ) : ℝ := l.foldr min (l.headD 0)

/-- `lidarReadings.slice(0, 16)`. -/
def lidarSlice (d : DroneState) : List (Option LiDARReading) := d.lidarReadings.take 16

/-- `droneStateToVector`: the 40-component state vector in source order.
The two branches of the source's `if readings.length >= 16` loop are
textually identical, so a single loop is embedded. -/
def droneStateToVector (d : DroneState) : List ℝ :=
  [d.position.x / 50, d.position.y / 50, d.position.z / 50,
   Real.tanh (d.velocity.x / 10), Real.tanh (d.velocity.y / 10),
   Real.tanh (d.velocity.z / 10),
   d.rotation.x / Real.pi, d.rotation.y / Real.pi, d.rotation.z / Real.pi,
   d.throttle, d.battery / 100, d.damage / 100, d.enginePower]
  ++ (List.range 16).map (fun i => min (d50 (d.lidarReadings.getD i none) / 50) 1)
  ++ [min (((lidarSlice d).map d50).sum / 16 / 50) 1,
      min (listMin ((lidarSlice d).map d50) / 50) 1,
      min (listMax ((lidarSlice d).map d0) / 50) 1,
      if d.isFlying then 1 else 0,
      if d.isLanded then 1 else 0,
      d.targetPosition.x / 50, d.targetPosition.y / 50, d.targetPosition.z / 50,
      min (d.distanceToTarget / 100) 1,
      (Vec3.normalizeJs (d.targetPosition.sub d.position)).x,
      (Vec3.normalizeJs (d.targetPosition.sub d.position)).z]

structure RewardConfig where
  stayingAirborne : ℝ
  exploringNewArea : ℝ
  stableFlightBonus : ℝ
  batteryEfficiency : ℝ
  progressToTarget : ℝ
  targetProximity : ℝ
  successfulLanding : ℝ
  collision : ℝ
  outOfBounds : ℝ
  batteryDrain : ℝ
  excessiveMovement : ℝ
  movingAwayFromTarget : ℝ
  timeStepPenalty : ℝ
  forbiddenAreaPenalty : ℝ
  crashPenalty : ℝ
  missionComplete : ℝ
  missionFailed : ℝ
  rewardDamageThreshold : ℝ
  rewardDamageAmount : ℝ

/-- `getDefaultRewardConfig` from `utils/simulation.ts`. -/
def getDefaultRewardConfig : RewardConfig :=
  { stayingAirborne := 0.05, exploringNewArea := 0, stableFlightBonus := 0.2,
    batteryEfficiency := 0,
    progressToTarget := 3, targetProximity := 0, successfulLanding := 0,
    collision := -30, outOfBounds := -100, batteryDrain := 0,
    excessiveMovement := 0, movingAwayFromTarget := -2,
    timeStepPenalty := -0.01, forbiddenAreaPenalty := -10,
    crashPenalty := 0, missionComplete := 1000, missionFailed := 0,
    rewardDamageThreshold := -200, rewardDamageAmount := 15 }

structure Building where
  position : Vec3
  size : Vec3

structure Tree where
  position : Vec3
  radius : ℝ

/-- Reward term 2: `+progressToTarget * deltaDistance` when closing in. -/
def progressTerm (cfg : RewardConfig) (currentDistance : ℝ)
    (previousDistance : Option ℝ) : ℝ :=
  match previousDistance with
  | some prev => if currentDistance < prev
      then cfg.progressToTarget * (prev - currentDistance) else 0
  | none => 0

/-- Reward term 3: `+movingAwayFromTarget * deltaDistance` (a negative
coefficient) when the distance opens. -/
def awayTerm (cfg : RewardConfig) (currentDistance : ℝ)
    (previousDistance : Option ℝ) : ℝ :=
  match previousDistance with
  | some prev => if prev < currentDistance
      then cfg.movingAwayFromTarget * (currentDistance - prev) else 0
  | none => 0

/-- Reward term 2.5: shaped proximity reward inside 50 m plus the 20/10/5 m
milestone bonuses. -/
def proximityTerm (currentDistance : ℝ) : ℝ :=
  if currentDistance ≤ 50 then
    max 0 ((50 - currentDistance) / 50) * 0.5
    + (if currentDistance ≤ 20 then 0.5 else 0)
    + (if currentDistance ≤ 10 then 1 else 0)
    + (if currentDistance ≤ 5 then 2 else 0)
  else 0

/-- Reward term 4: one-time mission-complete bonus when landed inside the
3 m zone. -/
def missionTerm (cfg : RewardConfig) (d : DroneState) : ℝ :=
  if d.distanceToTarget ≤ 3 ∧ d.isLanded = true ∧ d.missionCompleted = false
    then cfg.missionComplete else 0

/-- Landing-approach bonus: low and slow inside the landing zone while
still airborne. -/
def landingApproachTerm (d : DroneState) : ℝ :=
  if d.distanceToTarget ≤ 3 ∧ d.isFlying = true ∧ d.position.y ≤ 3 ∧
      d.velocity.length ≤ 2 then 0.3 else 0

/-- Reward term 5: collision penalty only on the tick the drone just died. -/
def collisionTerm (cfg : RewardConfig) (previousIsDead : Bool) (d : DroneState) : ℝ :=
  if d.isDead = true ∧ previousIsDead = false then cfg.collision else 0

/-- Reward term 6: out-of-bounds penalty. -/
def outOfBoundsTerm (cfg : RewardConfig) (d : DroneState) : ℝ :=
  if 50 < |d.position.x| ∨ 50 < |d.position.z| ∨ d.position.y < 0 ∨
      100 < d.position.y then cfg.outOfBounds else 0

/-- Reward term 7: stable-flight bonus. -/
def stableFlightTerm (cfg : RewardConfig) (d : DroneState) : ℝ :=
  if d.isFlying = true ∧ d.isDead = false ∧ d.velocity.length < 3
    then cfg.stableFlightBonus else 0

/-- Reward term 8: the three altitude regimes (very near target, near
target, cruise). -/
def altitudeTerm (d : DroneState) : ℝ :=
  if d.isFlying = true ∧ d.isDead = false then
    if d.distanceToTarget ≤ 3 then
      if d.position.y ≤ 3 then 0.5 else (3 - d.position.y) * 0.2
    else if d.distanceToTarget ≤ 8 then
      if 2 ≤ d.position.y ∧ d.position.y ≤ 12 then 0.2
      else if d.position.y < 2 then -0.1 else 0
    else
      if 5 ≤ d.position.y ∧ d.position.y ≤ 20 then 0.2
      else if d.position.y < 5 then
        (5 - d.position.y) * (-0.2) + (if d.position.y < 2 then -0.5 else 0)
      else (d.position.y - 20) * (-0.1)
  else 0

/-- Nearest surface distance over all buildings and trees (`none` models the
`Infinity` start value when there are no obstacles). -/
def nearestObstacleDistance (pos : Vec3) (buildings : List Building)
    (trees : List Tree) : Option ℝ :=
  match buildings.map (fun b => pos.distanceTo b.position - max b.size.x b.size.z / 2)
      ++ trees.map (fun t => pos.distanceTo t.position - t.radius) with
  | [] => none
  | x :: xs => some ((x :: xs).foldr min x)

/-- Reward term 9: graduated obstacle-proximity penalty in four bands. -/
def obstacleTerm (d : DroneState) (buildings : List Building) (trees : List Tree) : ℝ :=
  match nearestObstacleDistance d.position buildings trees with
  | none => 0
  | some nd =>
    if d.isFlying = true ∧ nd < 10 then
      if nd < 2 then -2 else if nd < 4 then -1 else if nd < 6 then -0.5 else -0.1
    else 0

/-- `calculateReward`: the additive composition of all reward terms in
source order (term 1 is the constant time-step penalty).  The `action`
parameter is unused, as in the source. -/
def calculateReward (cfg : RewardConfig) (previousIsDead : Bool) (d : DroneState)
    (_action : ℕ) (buildings : List Building) (trees : List Tree)
    (previousDistance : Option ℝ) : ℝ :=
  cfg.timeStepPenalty
  + progressTerm cfg d.distanceToTarget previousDistance
  + awayTerm cfg d.distanceToTarget previousDistance
  + proximityTerm d.distanceToTarget
  + missionTerm cfg d
  + landingApproachTerm d
  + collisionTerm cfg previousIsDead d
  + outOfBoundsTerm cfg d
  + stableFlightTerm cfg d
  + altitudeTerm d
  + obstacleTerm d buildings trees

structure DamageResult where
  shouldTakeDamage : Bool
  damageAmount : ℝ
  shouldDie : Bool

/-- `checkRewardBasedDamage`: fires when the cumulative reward crosses the
negative threshold from above; also returns the updated
`lastRewardDamageCheck` (the method stores the current value in both
branches). -/
def checkRewardBasedDamage (cfg : RewardConfig)
    (lastRewardDamageCheck currentTotalReward : ℝ) : DamageResult × ℝ :=
  if currentTotalReward ≤ cfg.rewardDamageThreshold ∧
      cfg.rewardDamageThreshold < lastRewardDamageCheck then
    ({ shouldTakeDamage := true, damageAmount := cfg.rewardDamageAmount,
       shouldDie := if currentTotalReward ≤ cfg.rewardDamageThreshold * 2
         then true else false }, currentTotalReward)
  else
    ({ shouldTakeDamage := false, damageAmount := 0, shouldDie := false },
     currentTotalReward)

def witnessDrone : DroneState :=
  { position := ⟨1, 2, 3⟩, rotation := ⟨0, 0, 0⟩, velocity := ⟨0, 0, 0⟩,
    isFlying := true, isLanded := false, isDead := false, missionCompleted := false,
    throttle := 0.5, battery := 90, damage := 0, enginePower := 0.5,
    lidarReadings := [some { angle := 0, distance := 0 },
                      some { angle := 0, distance := 10 }],
    targetPosition := ⟨4, 5, 6⟩, distanceToTarget := 40 }

/-! ### ImitationLearning (`src/ai/ImitationLearning.ts`)

`Date.now()` is an injected clock value; recording duration is
`now - recordingStartTime`. -/

structure DemonstrationData where
  state : List ℝ
  action : ℕ
  timestamp : ℕ
  quality : ℝ

structure ImitationLearningConfig where
  enabled : Bool
  recordingMode : Bool
  demonstrationBuffer : List DemonstrationData
  maxDemonstrations : ℕ
  imitationWeight : ℝ
  qualityThreshold : ℝ

structure ImitationLearning where
  config : ImitationLearningConfig
  currentRecording : List DemonstrationData
  recordingStartTime : ℝ

/-- `calculateDemonstrationQuality`: base 0.5, +0.4 on mission success, a
reward term (up to ±0.3), −0.1 per collision, a time-efficiency bonus up to
+0.2, clamped to [0, 1]. -/
def calculateDemonstrationQuality (missionSuccess : Bool) (totalReward : ℝ)
    (collisions : ℕ) (duration : ℝ) : ℝ :=
  max 0 (min 1
    (0.5 + (if missionSuccess then 0.4 else 0)
      + (if 0 < totalReward then min (totalReward / 1000) 0.3
         else max (totalReward / 500) (-0.3))
      - (collisions : ℝ) * 0.1
      + max 0 ((120000 - duration) / 120000 * 0.2)))

/-- `addDemonstrations`: append, drop the oldest excess past
`maxDemonstrations` (`splice(0, excess)`), then sort by quality
descending. -/
def addDemonstrations (buffer : List DemonstrationData) (maxDemonstrations : ℕ)
    (demonstrations : List DemonstrationData) : List DemonstrationData :=
  (if maxDemonstrations < (buffer ++ demonstrations).length
    then (buffer ++ demonstrations).drop
      ((buffer ++ demonstrations).length - maxDemonstrations)
    else buffer ++ demonstrations).mergeSort
    (fun a b => decide (b.quality ≤ a.quality))

/-- `stopRecording`: no-op unless recording with a nonempty batch; scores
the batch, and if the score meets the quality threshold, stamps every frame
with it and merges into the buffer; otherwise the batch is discarded.  The
in-progress recording is cleared either way. -/
def ImitationLearning.stopRecording (st : ImitationLearning) (missionSuccess : Bool)
    (totalReward : ℝ) (collisions : ℕ) (now : ℝ) : ImitationLearning :=
  if st.config.recordingMode = false ∨ st.currentRecording.length = 0 then st
  else
    if st.config.qualityThreshold ≤ calculateDemonstrationQuality missionSuccess
        totalReward collisions (now - st.recordingStartTime) then
      { st with
        config :=
          { st.config with
            recordingMode := false,
            demonstrationBuffer := addDemonstrations st.config.demonstrationBuffer
              st.config.maxDemonstrations
              (st.currentRecording.map (fun demo =>
                { demo with
                  quality := calculateDemonstrationQuality missionSuccess totalReward
                    collisions (now - st.recordingStartTime) })) },
        currentRecording := [] }
    else
      { st with config := { st.config with recordingMode := false },
                currentRecording := [] }

def witnessImitation : ImitationLearning :=
  { config :=
      { enabled := false, recordingMode := true, demonstrationBuffer := [],
        maxDemonstrations := 10000, imitationWeight := 0.3, qualityThreshold := 0.6 },
    currentRecording := [{ state := [], action := 0, timestamp := 0, quality := 1 }],
    recordingStartTime := 0 }

lemma ReplayBuffer.storeAll_append {α : Type} (b : ReplayBuffer α) (L : List α) (e : α) :
    b.storeAll (L ++ [e]) = (b.storeAll L).storeExperience e := by
  simp [ReplayBuffer.storeAll, List.foldl_append]

lemma ReplayBuffer.maxSize_storeExperience {α : Type} (b : ReplayBuffer α) (e : α) :
    (b.storeExperience e).maxSize = b.maxSize := by
  unfold ReplayBuffer.storeExperience
  split <;> rfl

lemma ReplayBuffer.maxSize_storeAll {α : Type} (b : ReplayBuffer α) (L : List α) :
    (b.storeAll L).maxSize = b.maxSize := by
  induction L using List.reverseRecOn with
  | nil => rfl
  | append_singleton L e ih =>
      rw [ReplayBuffer.storeAll_append, ReplayBuffer.maxSize_storeExperience, ih]

lemma ReplayBuffer.length_storeExperience_le {α : Type} (b : ReplayBuffer α) (e : α)
    (h : b.experiences.length ≤ b.maxSize) :
    (b.storeExperience e).experiences.length ≤ (b.storeExperience e).maxSize := by
  rw [ReplayBuffer.maxSize_storeExperience]
  unfold ReplayBuffer.storeExperience
  split
  · next hlt => simpa using hlt
  · simpa using h

lemma ReplayBuffer.length_storeAll_le {α : Type} (b : ReplayBuffer α) (L : List α)
    (h : b.experiences.length ≤ b.maxSize) :
    (b.storeAll L).experiences.length ≤ b.maxSize := by
  induction L using List.reverseRecOn with
  | nil => exact h
  | append_singleton L e ih =>
      rw [ReplayBuffer.storeAll_append]
      have := ReplayBuffer.length_storeExperience_le (b.storeAll L) e
        (by rw [ReplayBuffer.maxSize_storeAll]; exact ih)
      rwa [ReplayBuffer.maxSize_storeExperience, ReplayBuffer.maxSize_storeAll] at this

/-- While at most `maxSize` stores have happened, the buffer is just the
stored list in order, with the cursor still at 0. -/
lemma ReplayBuffer.storeAll_of_length_le {α : Type} (m : ℕ) (L : List α)
    (h : L.length ≤ m) :
    (ReplayBuffer.empty α m).storeAll L = ⟨L, m, 0⟩ := by
  induction L using List.reverseRecOn with
  | nil => rfl
  | append_singleton L e ih =>
      have hL : L.length ≤ m := by
        simp only [List.length_append, List.length_singleton] at h; omega
      have hlt : L.length < m := by
        simp only [List.length_append, List.length_singleton] at h; omega
      rw [ReplayBuffer.storeAll_append, ih hL]
      unfold ReplayBuffer.storeExperience
      simp [hlt]

/-- After `m + k` stores into an initially empty buffer of positive capacity
`m`, the buffer holds exactly `m` elements, the cursor sits at `k % m`, and
slot `i` holds the most recent stored element whose ordinal is congruent to
`i` modulo `m` — i.e. the most recent `m` stores, laid out in ring order. -/
lemma ReplayBuffer.storeAll_full {α : Type} (m : ℕ) (hm : 0 < m) (L : List α) :
    ∀ k : ℕ, L.length = m + k →
      ((ReplayBuffer.empty α m).storeAll L).experiences.length = m ∧
      ((ReplayBuffer.empty α m).storeAll L).currentIndex = k % m ∧
      ∀ i, i < m → ∃ t, k ≤ t ∧ t < m + k ∧ t % m = i ∧
        ((ReplayBuffer.empty α m).storeAll L).experiences[i]? = L[t]? := by
  induction L using List.reverseRecOn with
  | nil =>
      intro k hL
      simp only [List.length_nil] at hL
      omega
  | append_singleton L e ih =>
      intro k hL
      have hlen : L.length + 1 = m + k := by simpa using hL
      rcases k with _ | k'
      · -- exactly `m` stores: the last store is still an append
        have hLm : L.length = m - 1 := by omega
        have hLle : L.length ≤ m := by omega
        have hLlt : L.length < m := by omega
        rw [ReplayBuffer.storeAll_append, ReplayBuffer.storeAll_of_length_le m L hLle]
        unfold ReplayBuffer.storeExperience
        simp only [hLlt, if_pos]
        refine ⟨by simpa using hlen, by simp, ?_⟩
        intro i hi
        exact ⟨i, Nat.zero_le i, by omega, Nat.mod_eq_of_lt hi, rfl⟩
      · -- the buffer is already full: the last store overwrites slot `k' % m`
        have hL' : L.length = m + k' := by omega
        obtain ⟨hBlen, hBidx, hBslots⟩ := ih k' hL'
        have hBmax : ((ReplayBuffer.empty α m).storeAll L).maxSize = m :=
          ReplayBuffer.maxSize_storeAll _ _
        rw [ReplayBuffer.storeAll_append]
        unfold ReplayBuffer.storeExperience
        rw [hBlen, hBmax, hBidx, if_neg (lt_irrefl m)]
        refine ⟨by simp [hBlen], ?_, ?_⟩
        · simp [Nat.mod_add_mod]
        · intro i hi
          by_cases hieq : k' % m = i
          · refine ⟨m + k', by omega, by omega, by simpa [Nat.add_mod_left] using hieq, ?_⟩
            have hset : (((ReplayBuffer.empty α m).storeAll L).experiences.set (k' % m) e)[i]?
                = some e := by
              rw [List.getElem?_set]
              simp [hieq, hBlen, hi]
            rw [hset, ← hL', List.getElem?_concat_length]
          · obtain ⟨t, hkt, htlt, htmod, hslot⟩ := hBslots i hi
            have htne : t ≠ k' := by
              intro hcon
              exact hieq (hcon ▸ htmod)
            refine ⟨t, by omega, by omega, htmod, ?_⟩
            have hset : (((ReplayBuffer.empty α m).storeAll L).experiences.set (k' % m) e)[i]?
                = ((ReplayBuffer.empty α m).storeAll L).experiences[i]? := by
              rw [List.getElem?_set]
              simp [hieq]
            rw [hset, hslot, List.getElem?_append_left (by omega)]

/-- Claim C1: for every sequence of `storeExperience` calls on a `ReplayBuffer`
of capacity `maxSize`, the buffer's length never exceeds `maxSize`; after
`maxSize + k` stores the buffer holds exactly `maxSize` elements and slot `i`
holds the most recent stored experience whose ordinal is `≡ i (mod maxSize)`,
i.e. the most recent `maxSize` experiences in ring order; and for capacity 3
receiving E1,E2,E3,E4 the final slot contents are E4,E2,E3. -/
theorem claim_C1_replay_buffer_ring (α : Type) (m k : ℕ) (hm : 0 < m)
    (L : List α) (hL : L.length = m + k) :
    (∀ M : List α, ((ReplayBuffer.empty α m).storeAll M).experiences.length ≤ m) ∧
    ((ReplayBuffer.empty α m).storeAll L).experiences.length = m ∧
    (∀ i, i < m → ∃ t, k ≤ t ∧ t < m + k ∧ t % m = i ∧
      ((ReplayBuffer.empty α m).storeAll L).experiences[i]? = L[t]?) ∧
    ((ReplayBuffer.empty ℕ 3).storeAll [1, 2, 3, 4]).experiences = [4, 2, 3] := by
  obtain ⟨h1, _, h3⟩ := ReplayBuffer.storeAll_full m hm L k hL
  refine ⟨fun M => ?_, h1, h3, by decide⟩
  exact ReplayBuffer.length_storeAll_le _ M (by simp [ReplayBuffer.empty])

theorem claim_C1_replay_buffer_ring_witness :
    0 < 3 ∧ ([1, 2, 3, 4] : List ℕ).length = 3 + 1 ∧
    ((∀ M : List ℕ, ((ReplayBuffer.empty ℕ 3).storeAll M).experiences.length ≤ 3) ∧
     ((ReplayBuffer.empty ℕ 3).storeAll [1, 2, 3, 4]).experiences.length = 3 ∧
     (∀ i, i < 3 → ∃ t, 1 ≤ t ∧ t < 3 + 1 ∧ t % 3 = i ∧
       ((ReplayBuffer.empty ℕ 3).storeAll [1, 2, 3, 4]).experiences[i]? =
         ([1, 2, 3, 4] : List ℕ)[t]?) ∧
     ((ReplayBuffer.empty ℕ 3).storeAll [1, 2, 3, 4]).experiences = [4, 2, 3]) :=
  ⟨by decide, by decide,
   claim_C1_replay_buffer_ring ℕ 3 1 (by decide) [1, 2, 3, 4] (by decide)⟩

lemma sum_map_div (L : List ℝ) (c : ℝ) :
    (L.map (fun v => v / c)).sum = L.sum / c := by
  induction L with
  | nil => simp
  | cons x xs ih => simp [ih, add_div]

lemma length_softmax (l : List ℝ) : (softmax l).length = l.length := by
  simp [softmax]

lemma expValues_pos (l : List ℝ) (m : ℝ) :
    ∀ y ∈ l.map (fun v => Real.exp (v - m)), 0 < y := by
  intro y hy
  obtain ⟨v, _, rfl⟩ := List.mem_map.mp hy
  exact Real.exp_pos _

lemma expValues_sum_pos (l : List ℝ) (hl : l ≠ []) (m : ℝ) :
    0 < (l.map (fun v => Real.exp (v - m))).sum := by
  refine List.sum_pos _ (expValues_pos l m) ?_
  simpa using hl

lemma softmax_nonneg (l : List ℝ) (hl : l ≠ []) : ∀ y ∈ softmax l, 0 ≤ y := by
  intro y hy
  simp only [softmax] at hy
  obtain ⟨v, hv, rfl⟩ := List.mem_map.mp hy
  exact div_nonneg (le_of_lt (expValues_pos l _ v hv))
    (le_of_lt (expValues_sum_pos l hl _))

lemma softmax_sum (l : List ℝ) (hl : l ≠ []) : (softmax l).sum = 1 := by
  simp only [softmax]
  rw [sum_map_div]
  exact div_self (ne_of_gt (expValues_sum_pos l hl _))

lemma length_linearLayer (w : List (List ℝ)) (b : List ℝ) (act : List ℝ) :
    (linearLayer w b act).length = min w.length b.length := by
  simp [linearLayer]

/-- The layer loop ends in a softmax over the last layer's neurons: the
output has the last configured dimension, and (when that dimension is
positive) is entrywise nonnegative and sums to exactly 1. -/
lemma forwardLayers_props (mask : Mask) :
    ∀ (layers : List (List (List ℝ) × List ℝ)) (nIn : ℕ) (dims : List ℕ)
      (li : ℕ) (act : List ℝ) (dOut : ℕ),
      layersWf nIn dims layers = true → dims.getLast? = some dOut →
      (forwardLayers mask li layers act).2.length = dOut ∧
      (0 < dOut →
        (∀ y ∈ (forwardLayers mask li layers act).2, 0 ≤ y) ∧
        (forwardLayers mask li layers act).2.sum = 1) := by
  intro layers
  induction layers with
  | nil =>
      intro nIn dims li act dOut hwf hlast
      cases dims with
      | nil => simp at hlast
      | cons d ds => simp [layersWf] at hwf
  | cons wb rest ih =>
      intro nIn dims li act dOut hwf hlast
      cases dims with
      | nil => simp [layersWf] at hwf
      | cons d ds =>
          simp only [layersWf, Bool.and_eq_true, beq_iff_eq, List.all_eq_true] at hwf
          obtain ⟨⟨⟨hwlen, hblen⟩, _hrows⟩, hrest⟩ := hwf
          cases rest with
          | nil =>
              have hds : ds = [] := by
                cases ds with
                | nil => rfl
                | cons d2 ds2 => simp [layersWf] at hrest
              subst hds
              have hd : d = dOut := by simpa using hlast
              have hlen : (linearLayer wb.1 wb.2 act).length = dOut := by
                rw [length_linearLayer, hwlen, hblen, Nat.min_self]
                exact hd
              constructor
              · simp [forwardLayers, length_softmax, hlen]
              · intro hpos
                have hne : linearLayer wb.1 wb.2 act ≠ [] := by
                  intro hcon
                  rw [hcon] at hlen
                  simp at hlen
                  omega
                constructor
                · intro y hy
                  simp only [forwardLayers] at hy
                  exact softmax_nonneg _ hne y hy
                · simp only [forwardLayers]
                  exact softmax_sum _ hne
          | cons wb2 rest2 =>
              have hds : ∃ d2 ds2, ds = d2 :: ds2 := by
                cases ds with
                | nil => simp [layersWf] at hrest
                | cons d2 ds2 => exact ⟨d2, ds2, rfl⟩
              obtain ⟨d2, ds2, rfl⟩ := hds
              have hlast' : (d2 :: ds2).getLast? = some dOut := by
                simpa [List.getLast?_cons_cons] using hlast
              have := ih d (d2 :: ds2) (li + 1)
                (hiddenLayerPass mask li wb.1 wb.2 act) dOut hrest hlast'
              simpa [forwardLayers] using this

/-- Claim C2: for well-formed weights and positive output dimension, a
forward pass on an input of the configured length succeeds and returns a
vector of length `outputSize` whose entries are all ≥ 0 and whose entries
sum to 1 (hence within `1e-6` of 1); an input of any other length is
rejected with the dimension-mismatch error. -/
theorem claim_C2_forward_softmax (net : NeuralNetwork) (mask : Mask) (input : List ℝ)
    (hwf : net.weights.wf net.config = true) (hout : 0 < net.config.outputSize) :
    (input.length = net.config.inputSize →
      ∃ net2 out, net.forward mask input = .ok (net2, out) ∧
        out.length = net.config.outputSize ∧ (∀ y ∈ out, 0 ≤ y) ∧
        out.sum = 1 ∧ |out.sum - 1| ≤ 1 / 1000000) ∧
    (input.length ≠ net.config.inputSize →
      net.forward mask input = .error "Input size mismatch") := by
  constructor
  · intro hlen
    simp only [NetworkWeights.wf, Bool.and_eq_true, beq_iff_eq] at hwf
    obtain ⟨_hzip, hlw⟩ := hwf
    have hlast : (net.config.hiddenLayers ++ [net.config.outputSize]).getLast?
        = some net.config.outputSize := by
      simp
    have hprops := forwardLayers_props mask (net.weights.weights.zip net.weights.biases)
      net.config.inputSize (net.config.hiddenLayers ++ [net.config.outputSize]) 0 input
      net.config.outputSize hlw hlast
    obtain ⟨hlen2, hpos⟩ := hprops
    obtain ⟨hnn, hsum⟩ := hpos hout
    refine ⟨{ net with activations :=
        input :: (forwardLayers mask 0 (net.weights.weights.zip net.weights.biases) input).1 },
      (forwardLayers mask 0 (net.weights.weights.zip net.weights.biases) input).2,
      ?_, hlen2, hnn, hsum, by rw [hsum]; norm_num⟩
    unfold NeuralNetwork.forward
    rw [if_neg (by omega)]
  · intro hlen
    unfold NeuralNetwork.forward
    rw [if_pos hlen]

lemma NeuralNetwork.config_backward (net : NeuralNetwork) (t : List ℝ) :
    (net.backward t).1.config = net.config := rfl

lemma NeuralNetwork.forward_ok (net : NeuralNetwork) (mask : Mask) (input : List ℝ)
    (h : input.length = net.config.inputSize) :
    net.forward mask input = .ok
      ({ net with activations :=
          input :: (forwardLayers mask 0 (net.weights.weights.zip net.weights.biases) input).1 },
       (forwardLayers mask 0 (net.weights.weights.zip net.weights.biases) input).2) := by
  unfold NeuralNetwork.forward
  rw [if_neg (by omega)]

lemma NeuralNetwork.config_forward (net net1 : NeuralNetwork) (mask : Mask)
    (input : List ℝ) (out : List ℝ)
    (h : net.forward mask input = .ok (net1, out)) : net1.config = net.config := by
  unfold NeuralNetwork.forward at h
  by_cases hc : input.length ≠ net.config.inputSize
  · rw [if_pos hc] at h
    exact absurd h (by simp)
  · rw [if_neg hc] at h
    simp only [Except.ok.injEq, Prod.mk.injEq] at h
    rw [← h.1]

lemma trainOne_ok (gamma : ℝ) (maskM maskT : Mask)
    (acc : NeuralNetwork × NeuralNetwork × ℝ) (e : Experience)
    (hs : e.state.length = acc.1.config.inputSize)
    (hn : e.nextState.length = acc.2.1.config.inputSize) :
    ∃ res, trainOne gamma maskM maskT acc e = .ok res ∧
      res.1.config = acc.1.config ∧ res.2.1.config = acc.2.1.config := by
  unfold trainOne
  rw [acc.1.forward_ok maskM e.state hs]
  by_cases hd : e.done = true
  · simp only [hd, Except.bind, if_true]
    exact ⟨_, rfl, rfl, rfl⟩
  · simp only [Bool.not_eq_true] at hd
    simp only [hd, Except.bind, Bool.false_eq_true, if_false]
    rw [acc.2.1.forward_ok maskT e.nextState hn]
    exact ⟨_, rfl, rfl, rfl⟩

lemma foldTrain_ok (gamma : ℝ) (masksM masksT : ℕ → Mask) :
    ∀ (l : List (ℕ × Experience)) (acc : NeuralNetwork × NeuralNetwork × ℝ),
      (∀ p ∈ l, p.2.state.length = acc.1.config.inputSize ∧
        p.2.nextState.length = acc.2.1.config.inputSize) →
      ∃ res, l.foldlM
          (fun acc ie => trainOne gamma (masksM ie.1) (masksT ie.1) acc ie.2) acc
        = .ok res ∧ res.1.config = acc.1.config ∧ res.2.1.config = acc.2.1.config := by
  intro l
  induction l with
  | nil =>
      intro acc _
      exact ⟨acc, rfl, rfl, rfl⟩
  | cons p rest ih =>
      intro acc hlen
      obtain ⟨res1, hres1, hc1, hc2⟩ := trainOne_ok gamma (masksM p.1) (masksT p.1) acc p.2
        (hlen p (by simp)).1 (hlen p (by simp)).2
      obtain ⟨res2, hres2, hd1, hd2⟩ := ih res1
        (fun q hq => by
          rw [hc1, hc2]
          exact hlen q (List.mem_cons_of_mem p hq))
      refine ⟨res2, ?_, by rw [hd1, hc1], by rw [hd2, hc2]⟩
      rw [List.foldlM_cons, hres1]
      simpa [Except.bind] using hres2

/-- Claim C3: `train()` returns loss 0 and leaves the whole agent state
(including all weights) unchanged when the buffer holds fewer than
`batchSize` experiences; otherwise each sampled experience is processed by
computing `currentQ = mainNetwork.forward(state)`, the Bellman target
`y = reward` on terminal transitions and
`y = reward + gamma * max(targetNetwork.forward(nextState))` otherwise, and
supervising `mainNetwork.backward` with `currentQ` whose taken-action slot
alone is replaced by `y`. -/
theorem claim_C3_train_bellman (st : ReinforcementLearning) (batchIdx : List ℕ)
    (masksM masksT : ℕ → Mask) :
    (st.replayBuffer.experiences.length < st.config.batchSize →
      st.train batchIdx masksM masksT = .ok (st, 0)) ∧
    (∀ (gamma : ℝ) (maskM maskT : Mask) (main target : NeuralNetwork)
       (e : Experience) (lossAcc : ℝ) (main1 : NeuralNetwork) (currentQ : List ℝ),
      main.forward maskM e.state = .ok (main1, currentQ) →
      ((e.done = true →
        trainOne gamma maskM maskT (main, target, lossAcc) e =
          .ok ((main1.backward (currentQ.set e.action e.reward)).1, target,
               lossAcc + (main1.backward (currentQ.set e.action e.reward)).2)) ∧
       (∀ (target1 : NeuralNetwork) (nextQ : List ℝ), e.done = false →
        target.forward maskT e.nextState = .ok (target1, nextQ) →
        trainOne gamma maskM maskT (main, target, lossAcc) e =
          .ok ((main1.backward
                  (currentQ.set e.action (e.reward + gamma * listMax nextQ))).1,
               target1,
               lossAcc + (main1.backward
                  (currentQ.set e.action (e.reward + gamma * listMax nextQ))).2)))) ∧
    (∀ (currentQ : List ℝ) (a : ℕ) (y : ℝ), a < currentQ.length →
      (currentQ.set a y).length = currentQ.length ∧
      (currentQ.set a y)[a]? = some y ∧
      ∀ i, i ≠ a → (currentQ.set a y)[i]? = currentQ[i]?) := by
  refine ⟨?_, ?_, ?_⟩
  · intro h
    unfold ReinforcementLearning.train
    rw [if_pos h]
  · intro gamma maskM maskT main target e lossAcc main1 currentQ hfm
    constructor
    · intro hdone
      unfold trainOne
      simp only [hfm, hdone, Except.bind, if_true]
      rfl
    · intro target1 nextQ hdone hft
      unfold trainOne
      simp only [hfm, hft, hdone, Except.bind, Bool.false_eq_true, if_false]
      rfl
  · intro currentQ a y ha
    refine ⟨List.length_set _ _ _, ?_, ?_⟩
    · rw [List.getElem?_set, if_pos rfl, if_pos ha]
    · intro i hi
      rw [List.getElem?_set, if_neg (fun hcon => hi hcon.symm)]

lemma ReinforcementLearning.train_eq_of_fold (st : ReinforcementLearning)
    (batchIdx : List ℕ) (masksM masksT : ℕ → Mask)
    (res : NeuralNetwork × NeuralNetwork × ℝ)
    (hbatch : ¬ st.replayBuffer.experiences.length < st.config.batchSize)
    (hfold : (batchIdx.filterMap (fun i => st.replayBuffer.experiences[i]?)).enum.foldlM
        (fun acc ie => trainOne st.config.gamma (masksM ie.1) (masksT ie.1) acc ie.2)
        (st.mainNetwork, st.targetNetwork, (0 : ℝ)) = .ok res) :
    st.train batchIdx masksM masksT = .ok
      (if (st.totalSteps + 1) % st.config.targetUpdateFrequency = 0
        then ({ st with mainNetwork := res.1, targetNetwork := res.2.1,
                        totalSteps := st.totalSteps + 1 } :
                ReinforcementLearning).updateTargetNetwork
        else { st with mainNetwork := res.1, targetNetwork := res.2.1,
                        totalSteps := st.totalSteps + 1 },
       res.2.2 /
         ((batchIdx.filterMap (fun i => st.replayBuffer.experiences[i]?)).length : ℝ)) := by
  unfold ReinforcementLearning.train
  rw [if_neg hbatch, hfold]

lemma ReinforcementLearning.train_eq_of_fold_err (st : ReinforcementLearning)
    (batchIdx : List ℕ) (masksM masksT : ℕ → Mask) (msg : String)
    (hbatch : ¬ st.replayBuffer.experiences.length < st.config.batchSize)
    (hfold : (batchIdx.filterMap (fun i => st.replayBuffer.experiences[i]?)).enum.foldlM
        (fun acc ie => trainOne st.config.gamma (masksM ie.1) (masksT ie.1) acc ie.2)
        (st.mainNetwork, st.targetNetwork, (0 : ℝ)) = .error msg) :
    st.train batchIdx masksM masksT = .error msg := by
  unfold ReinforcementLearning.train
  rw [if_neg hbatch, hfold]

/-- Claim C4: any `train()` call that processes a batch (buffer at least
`batchSize`) and raises the global step counter to a multiple of
`targetUpdateFrequency` leaves the target network's weights structurally
equal to the main network's weights; moreover such a call really does
succeed whenever the stored experiences have the configured state lengths. -/
theorem claim_C4_target_sync (st : ReinforcementLearning) (batchIdx : List ℕ)
    (masksM masksT : ℕ → Mask)
    (hbatch : st.config.batchSize ≤ st.replayBuffer.experiences.length)
    (hstep : (st.totalSteps + 1) % st.config.targetUpdateFrequency = 0) :
    (∀ (st2 : ReinforcementLearning) (loss : ℝ),
      st.train batchIdx masksM masksT = .ok (st2, loss) →
      st2.targetNetwork.weights = st2.mainNetwork.weights ∧
      st2.totalSteps = st.totalSteps + 1) ∧
    ((∀ e ∈ st.replayBuffer.experiences,
        e.state.length = st.mainNetwork.config.inputSize ∧
        e.nextState.length = st.targetNetwork.config.inputSize) →
      ∃ st2 loss, st.train batchIdx masksM masksT = .ok (st2, loss) ∧
        st2.targetNetwork.weights = st2.mainNetwork.weights) := by
  have hmem : ∀ p ∈ (batchIdx.filterMap
      (fun i => st.replayBuffer.experiences[i]?)).enum,
      p.2 ∈ st.replayBuffer.experiences := by
    intro p hp
    have h2 := List.snd_mem_of_mem_enum hp
    obtain ⟨i, _, hget⟩ := List.mem_filterMap.mp h2
    exact List.getElem?_mem hget
  constructor
  · intro st2 loss h
    rcases hfold : ((batchIdx.filterMap
        (fun i => st.replayBuffer.experiences[i]?)).enum.foldlM
        (fun acc ie => trainOne st.config.gamma (masksM ie.1) (masksT ie.1) acc ie.2)
        (st.mainNetwork, st.targetNetwork, (0 : ℝ))) with msg | res
    · rw [ReinforcementLearning.train_eq_of_fold_err st batchIdx masksM masksT msg
        (not_lt.mpr hbatch) hfold] at h
      simp at h
    · rw [ReinforcementLearning.train_eq_of_fold st batchIdx masksM masksT res
        (not_lt.mpr hbatch) hfold, if_pos hstep] at h
      simp only [Except.ok.injEq, Prod.mk.injEq] at h
      rw [← h.1]
      exact ⟨rfl, rfl⟩
  · intro hlens
    obtain ⟨res, hfold, _, _⟩ := foldTrain_ok st.config.gamma masksM masksT
      ((batchIdx.filterMap (fun i => st.replayBuffer.experiences[i]?)).enum)
      (st.mainNetwork, st.targetNetwork, (0 : ℝ))
      (fun p hp => hlens p.2 (hmem p hp))
    have heq := ReinforcementLearning.train_eq_of_fold st batchIdx masksM masksT res
      (not_lt.mpr hbatch) hfold
    rw [if_pos hstep] at heq
    exact ⟨_, _, heq, rfl⟩

lemma NeuralNetwork.forward_congr (n1 n2 : NeuralNetwork) (mask : Mask) (x : List ℝ)
    (hc : n1.config = n2.config) (hw : n1.weights = n2.weights) :
    n1.forward mask x = n2.forward mask x := by
  unfold NeuralNetwork.forward
  rw [hc, hw]

/-- Claim C5: `loadModel (saveModel)` on a fresh agent with the same network
configuration succeeds and reproduces the original agent's forward pass
exactly, for every probe input and every dropout draw. -/
theorem claim_C5_save_load_roundtrip (orig fresh : ReinforcementLearning)
    (hcfg : fresh.mainNetwork.config = orig.mainNetwork.config) :
    (fresh.loadModel orig.saveModel).2 = none ∧
    ∀ (mask : Mask) (x : List ℝ),
      (fresh.loadModel orig.saveModel).1.mainNetwork.forward mask x =
        orig.mainNetwork.forward mask x := by
  refine ⟨rfl, fun mask x => ?_⟩
  exact NeuralNetwork.forward_congr _ _ mask x hcfg rfl

/-- Claim C6 (amended): `loadModel` raises and leaves the whole agent state
unchanged on inputs that fail JSON parsing or whose `mainNetwork` field is
absent; but a parseable input carrying a valid `mainNetwork` and no
`targetNetwork` raises only after the main network's weights have already
been replaced, so malformed input can partially corrupt the agent. -/
theorem claim_C6_load_failure_atomicity (st : ReinforcementLearning)
    (tw : Option NetworkWeights) (nc : Option NeuralNetworkConfig)
    (tc : Option TrainingConfig) (ep ts : Option ℕ)
    (ms : Option (List TrainingMetrics)) :
    st.loadModel .unparseable = (st, some "Invalid model data") ∧
    st.loadModel (.parsed none tw nc tc ep ts ms) = (st, some "Invalid model data") ∧
    (∀ w, st.loadModel (.parsed (some w) none nc tc ep ts ms) =
      ({ st with mainNetwork := st.mainNetwork.setWeights w },
       some "Invalid model data")) :=
  ⟨rfl, rfl, fun _ => rfl⟩

theorem claim_C3_train_bellman_witness :
    witnessAgent.replayBuffer.experiences.length < witnessAgent.config.batchSize ∧
    (1 : ℕ) < ([10, 20, 30] : List ℝ).length ∧
    wExpDone.done = true ∧
    witnessAgent.train [] (fun _ => wMask) (fun _ => wMask) = .ok (witnessAgent, 0) ∧
    trainOne (99 / 100 : ℝ) wMask wMask (witnessNet, witnessNet, 0) wExpDone =
      .ok ((wNet1.backward (wFwd.2.set 0 1)).1, witnessNet,
           0 + (wNet1.backward (wFwd.2.set 0 1)).2) ∧
    (([10, 20, 30] : List ℝ).set 1 5).length = ([10, 20, 30] : List ℝ).length ∧
    (([10, 20, 30] : List ℝ).set 1 5)[1]? = some 5 ∧
    (∀ i, i ≠ 1 → (([10, 20, 30] : List ℝ).set 1 5)[i]? = ([10, 20, 30] : List ℝ)[i]?) := by
  have h := claim_C3_train_bellman witnessAgent [] (fun _ => wMask) (fun _ => wMask)
  have h1 : witnessAgent.replayBuffer.experiences.length < witnessAgent.config.batchSize := by
    decide
  have hfm : witnessNet.forward wMask wExpDone.state = .ok (wNet1, wFwd.2) :=
    NeuralNetwork.forward_ok witnessNet wMask [0, 0] (by decide)
  have h2 := (h.2.1 (99 / 100 : ℝ) wMask wMask witnessNet witnessNet wExpDone 0
    wNet1 wFwd.2 hfm).1 rfl
  have h3 := h.2.2 [10, 20, 30] 1 5 (by simp)
  exact ⟨h1, by simp, rfl, h.1 h1, h2, h3.1, h3.2.1, h3.2.2⟩

theorem claim_C4_target_sync_witness :
    witnessAgentSync.config.batchSize ≤ witnessAgentSync.replayBuffer.experiences.length ∧
    (witnessAgentSync.totalSteps + 1) % witnessAgentSync.config.targetUpdateFrequency = 0 ∧
    ((∀ (st2 : ReinforcementLearning) (loss : ℝ),
        witnessAgentSync.train [] (fun _ => wMask) (fun _ => wMask) = .ok (st2, loss) →
        st2.targetNetwork.weights = st2.mainNetwork.weights ∧
        st2.totalSteps = witnessAgentSync.totalSteps + 1) ∧
     ((∀ e ∈ witnessAgentSync.replayBuffer.experiences,
         e.state.length = witnessAgentSync.mainNetwork.config.inputSize ∧
         e.nextState.length = witnessAgentSync.targetNetwork.config.inputSize) →
       ∃ st2 loss, witnessAgentSync.train [] (fun _ => wMask) (fun _ => wMask)
           = .ok (st2, loss) ∧
         st2.targetNetwork.weights = st2.mainNetwork.weights)) :=
  ⟨by decide, by decide,
   claim_C4_target_sync witnessAgentSync [] (fun _ => wMask) (fun _ => wMask)
     (by decide) (by decide)⟩

theorem claim_C5_save_load_roundtrip_witness :
    witnessAgentB.mainNetwork.config = witnessAgent.mainNetwork.config ∧
    ((witnessAgentB.loadModel witnessAgent.saveModel).2 = none ∧
     ∀ (mask : Mask) (x : List ℝ),
       (witnessAgentB.loadModel witnessAgent.saveModel).1.mainNetwork.forward mask x =
         witnessAgent.mainNetwork.forward mask x) :=
  ⟨rfl, claim_C5_save_load_roundtrip witnessAgent witnessAgentB rfl⟩

/-- Counterexample to claim C6 as stated: the malformed (but parseable) blob
`{"mainNetwork": W'}` with no `targetNetwork` field makes `loadModel` raise
the load error, yet the agent's main-network weights were already replaced —
the prior state is not left intact. -/
theorem claim_C6_counterexample :
    (witnessAgent.loadModel
        (.parsed (some witnessWeightsB) none none none none none none)).2
      = some "Invalid model data" ∧
    (witnessAgent.loadModel
        (.parsed (some witnessWeightsB) none none none none none none)).1.mainNetwork.weights
      ≠ witnessAgent.mainNetwork.weights := by
  refine ⟨rfl, ?_⟩
  intro h
  have h2 : witnessWeightsB = witnessWeights := h
  simp only [witnessWeightsB, witnessWeights, NetworkWeights.mk.injEq,
    List.cons.injEq] at h2
  have h3 : (2 : ℝ) = 1 := h2.1.1.1.1
  norm_num at h3

theorem claim_C2_forward_softmax_witness :
    witnessNet.weights.wf witnessNet.config = true ∧ 0 < witnessNet.config.outputSize ∧
    ((([0, 0] : List ℝ).length = witnessNet.config.inputSize →
      ∃ net2 out, witnessNet.forward (fun _ _ => false) [0, 0] = .ok (net2, out) ∧
        out.length = witnessNet.config.outputSize ∧ (∀ y ∈ out, 0 ≤ y) ∧
        out.sum = 1 ∧ |out.sum - 1| ≤ 1 / 1000000) ∧
     (([0, 0] : List ℝ).length ≠ witnessNet.config.inputSize →
      witnessNet.forward (fun _ _ => false) [0, 0] = .error "Input size mismatch")) :=
  ⟨by simp [NetworkWeights.wf, layersWf, witnessNet, witnessWeights, witnessConfig],
   by simp [witnessNet, witnessConfig],
   claim_C2_forward_softmax witnessNet (fun _ _ => false) [0, 0]
     (by simp [NetworkWeights.wf, layersWf, witnessNet, witnessWeights, witnessConfig])
     (by simp [witnessNet, witnessConfig])⟩

/-- Claim C7: with the default reward configuration, a drone 40 m from the
target that was previously 45 m away earns the progress term
`progressToTarget * 5` plus the ≤ 50 m proximity bonus `(50-40)/50 * 0.5`,
none of the ≤ 20 m / ≤ 10 m / ≤ 5 m tier bonuses, no mission or
landing-approach bonus, and in no call are the closing-distance and
opening-distance terms both applied. -/
theorem claim_C7_reward_scenario (d : DroneState) (a : ℕ) (previousIsDead : Bool)
    (buildings : List Building) (trees : List Tree)
    (h : d.distanceToTarget = 40) :
    calculateReward getDefaultRewardConfig previousIsDead d a buildings trees (some 45)
      = getDefaultRewardConfig.timeStepPenalty
        + getDefaultRewardConfig.progressToTarget * 5 + (50 - 40) / 50 * 0.5
        + collisionTerm getDefaultRewardConfig previousIsDead d
        + outOfBoundsTerm getDefaultRewardConfig d
        + stableFlightTerm getDefaultRewardConfig d
        + altitudeTerm d + obstacleTerm d buildings trees ∧
    progressTerm getDefaultRewardConfig 40 (some 45)
      = getDefaultRewardConfig.progressToTarget * 5 ∧
    awayTerm getDefaultRewardConfig 40 (some 45) = 0 ∧
    proximityTerm 40 = (50 - 40) / 50 * 0.5 ∧
    missionTerm getDefaultRewardConfig d = 0 ∧
    landingApproachTerm d = 0 ∧
    ∀ (cfg : RewardConfig) (cur prev : ℝ),
      progressTerm cfg cur (some prev) = 0 ∨ awayTerm cfg cur (some prev) = 0 := by
  have hprog : progressTerm getDefaultRewardConfig 40 (some 45)
      = getDefaultRewardConfig.progressToTarget * 5 := by
    simp only [progressTerm]
    rw [if_pos (by norm_num)]
    norm_num
  have haway : awayTerm getDefaultRewardConfig 40 (some 45) = 0 := by
    simp only [awayTerm]
    rw [if_neg (by norm_num)]
  have hprox : proximityTerm 40 = (50 - 40) / 50 * 0.5 := by
    simp only [proximityTerm]
    rw [if_pos (by norm_num), if_neg (by norm_num), if_neg (by norm_num),
      if_neg (by norm_num), max_eq_right (by norm_num)]
    ring
  have hmis : missionTerm getDefaultRewardConfig d = 0 := by
    simp only [missionTerm, h]
    rw [if_neg (fun hc => absurd hc.1 (by norm_num))]
  have hland : landingApproachTerm d = 0 := by
    simp only [landingApproachTerm, h]
    rw [if_neg (fun hc => absurd hc.1 (by norm_num))]
  refine ⟨?_, hprog, haway, hprox, hmis, hland, ?_⟩
  · unfold calculateReward
    rw [h, hprog, haway, hprox, hmis, hland]
    ring
  · intro cfg cur prev
    rcases lt_trichotomy cur prev with h1 | h1 | h1
    · right
      simp only [awayTerm]
      rw [if_neg (not_lt.mpr (le_of_lt h1))]
    · left
      simp only [progressTerm]
      rw [if_neg (by rw [h1]; exact lt_irrefl prev)]
    · left
      simp only [progressTerm]
      rw [if_neg (not_lt.mpr (le_of_lt h1))]

/-- Claim C8: `checkRewardBasedDamage` fires exactly when the cumulative
reward crosses the configured negative threshold from above; when it fires
it reports the configured damage amount and orders death exactly when the
cumulative reward is at or below twice the threshold.  With the default
threshold −200: crossing from −150 to −210 gives damage without death;
crossing from any value above −200 down to −410 additionally gives death. -/
theorem claim_C8_reward_damage (cfg : RewardConfig) (last cur : ℝ) :
    ((checkRewardBasedDamage cfg last cur).1.shouldTakeDamage = true ↔
      (cur ≤ cfg.rewardDamageThreshold ∧ cfg.rewardDamageThreshold < last)) ∧
    (checkRewardBasedDamage cfg last cur).2 = cur ∧
    ((checkRewardBasedDamage cfg last cur).1.shouldTakeDamage = true →
      (checkRewardBasedDamage cfg last cur).1.damageAmount = cfg.rewardDamageAmount ∧
      ((checkRewardBasedDamage cfg last cur).1.shouldDie = true ↔
        cur ≤ cfg.rewardDamageThreshold * 2)) ∧
    checkRewardBasedDamage getDefaultRewardConfig (-150) (-210)
      = ({ shouldTakeDamage := true, damageAmount := 15, shouldDie := false }, -210) ∧
    ∀ last2 : ℝ, getDefaultRewardConfig.rewardDamageThreshold < last2 →
      checkRewardBasedDamage getDefaultRewardConfig last2 (-410)
        = ({ shouldTakeDamage := true, damageAmount := 15, shouldDie := true }, -410) := by
  refine ⟨?_, ?_, ?_, ?_, ?_⟩
  · by_cases hc : cur ≤ cfg.rewardDamageThreshold ∧ cfg.rewardDamageThreshold < last
    · unfold checkRewardBasedDamage
      rw [if_pos hc]
      simpa using hc
    · unfold checkRewardBasedDamage
      rw [if_neg hc]
      simpa using hc
  · unfold checkRewardBasedDamage
    split <;> rfl
  · intro hdmg
    by_cases hc : cur ≤ cfg.rewardDamageThreshold ∧ cfg.rewardDamageThreshold < last
    · unfold checkRewardBasedDamage at hdmg ⊢
      rw [if_pos hc] at hdmg ⊢
      refine ⟨rfl, ?_⟩
      by_cases hd : cur ≤ cfg.rewardDamageThreshold * 2
      · simp [hd]
      · simp [hd]
    · unfold checkRewardBasedDamage at hdmg
      rw [if_neg hc] at hdmg
      simp at hdmg
  · unfold checkRewardBasedDamage
    rw [if_pos (by norm_num [getDefaultRewardConfig]),
      if_neg (by norm_num [getDefaultRewardConfig] :
        ¬ ((-210 : ℝ) ≤ getDefaultRewardConfig.rewardDamageThreshold * 2))]
    norm_num [getDefaultRewardConfig]
  · intro last2 hl
    unfold checkRewardBasedDamage
    rw [if_pos ⟨by norm_num [getDefaultRewardConfig], hl⟩,
      if_pos (by norm_num [getDefaultRewardConfig] :
        ((-410 : ℝ) ≤ getDefaultRewardConfig.rewardDamageThreshold * 2))]
    norm_num [getDefaultRewardConfig]

/-- Claim C10: in `droneStateToVector`, a lidar reading with distance
exactly 0 is treated identically to a missing reading (the whole 40-element
state vector is unchanged when it is replaced by `none`): the per-ray
component becomes 1.0 (full 50 m range, a fully clear ray), and the value
fed into the mean and minimum aggregate indicators for that ray is 50 (and
0, like a missing ray, for the maximum indicator). -/
theorem claim_C10_lidar_zero_reading (d : DroneState) (i : ℕ) (r : LiDARReading)
    (hget : d.lidarReadings[i]? = some (some r)) (hdist : r.distance = 0)
    (hi : i < 16) :
    droneStateToVector { d with lidarReadings := d.lidarReadings.set i none }
      = droneStateToVector d ∧
    (droneStateToVector d)[13 + i]? = some 1 ∧
    ((lidarSlice d).map d50)[i]? = some 50 ∧
    ((lidarSlice d).map d0)[i]? = some 0 := by
  have hlen : i < d.lidarReadings.length := by
    by_contra hcon
    rw [List.getElem?_eq_none (le_of_not_lt hcon)] at hget
    simp at hget
  have h50 : d50 (some r) = 50 := by simp [d50, hdist]
  have h0 : d0 (some r) = 0 := by simp [d0, hdist]
  have hmap50 : ((d.lidarReadings.set i none).take 16).map d50
      = (d.lidarReadings.take 16).map d50 := by
    apply List.ext_getElem?
    intro n
    by_cases hn : n < 16
    · rw [List.getElem?_map, List.getElem?_map, List.getElem?_take,
        List.getElem?_take, if_pos hn, if_pos hn, List.getElem?_set]
      by_cases hni : i = n
      · subst hni
        rw [if_pos rfl, if_pos hlen, hget]
        simp [d50, hdist]
      · rw [if_neg hni]
    · rw [List.getElem?_map, List.getElem?_map, List.getElem?_take,
        List.getElem?_take, if_neg hn, if_neg hn]
  have hmap0 : ((d.lidarReadings.set i none).take 16).map d0
      = (d.lidarReadings.take 16).map d0 := by
    apply List.ext_getElem?
    intro n
    by_cases hn : n < 16
    · rw [List.getElem?_map, List.getElem?_map, List.getElem?_take,
        List.getElem?_take, if_pos hn, if_pos hn, List.getElem?_set]
      by_cases hni : i = n
      · subst hni
        rw [if_pos rfl, if_pos hlen, hget]
        simp [d0, hdist]
      · rw [if_neg hni]
    · rw [List.getElem?_map, List.getElem?_map, List.getElem?_take,
        List.getElem?_take, if_neg hn, if_neg hn]
  have hrange : (List.range 16).map
      (fun j => min (d50 ((d.lidarReadings.set i none).getD j none) / 50) 1)
      = (List.range 16).map (fun j => min (d50 (d.lidarReadings.getD j none) / 50) 1) := by
    apply List.map_congr_left
    intro j _
    rw [List.getD_eq_getElem?_getD, List.getD_eq_getElem?_getD, List.getElem?_set]
    by_cases hij : i = j
    · subst hij
      rw [if_pos rfl, if_pos hlen, hget]
      simp [d50, hdist]
    · rw [if_neg hij]
  refine ⟨?_, ?_, ?_, ?_⟩
  · simp only [droneStateToVector, lidarSlice]
    rw [hmap50, hmap0, hrange]
  · simp only [droneStateToVector]
    rw [List.getElem?_append_left (by simp; omega), List.getElem?_append_right (by simp)]
    simp only [List.length_cons, List.length_nil]
    have hidx : 13 + i - 13 = i := by omega
    rw [hidx, List.getElem?_map, List.getElem?_range hi]
    simp only [Option.map_some']
    rw [List.getD_eq_getElem?_getD, hget]
    simp only [Option.getD_some, Option.some_inj]
    rw [h50]
    norm_num
  · rw [List.getElem?_map]
    simp only [lidarSlice]
    rw [List.getElem?_take, if_pos hi, hget]
    simp [d50, hdist]
  · rw [List.getElem?_map]
    simp only [lidarSlice]
    rw [List.getElem?_take, if_pos hi, hget]
    simp [d0, hdist]

theorem claim_C7_reward_scenario_witness :
    witnessDrone.distanceToTarget = 40 ∧
    (calculateReward getDefaultRewardConfig false witnessDrone 0 [] [] (some 45)
      = getDefaultRewardConfig.timeStepPenalty
        + getDefaultRewardConfig.progressToTarget * 5 + (50 - 40) / 50 * 0.5
        + collisionTerm getDefaultRewardConfig false witnessDrone
        + outOfBoundsTerm getDefaultRewardConfig witnessDrone
        + stableFlightTerm getDefaultRewardConfig witnessDrone
        + altitudeTerm witnessDrone + obstacleTerm witnessDrone [] [] ∧
     progressTerm getDefaultRewardConfig 40 (some 45)
       = getDefaultRewardConfig.progressToTarget * 5 ∧
     awayTerm getDefaultRewardConfig 40 (some 45) = 0 ∧
     proximityTerm 40 = (50 - 40) / 50 * 0.5 ∧
     missionTerm getDefaultRewardConfig witnessDrone = 0 ∧
     landingApproachTerm witnessDrone = 0 ∧
     ∀ (cfg : RewardConfig) (cur prev : ℝ),
       progressTerm cfg cur (some prev) = 0 ∨ awayTerm cfg cur (some prev) = 0) :=
  ⟨rfl, claim_C7_reward_scenario witnessDrone 0 false [] [] rfl⟩

theorem claim_C8_reward_damage_witness :
    getDefaultRewardConfig.rewardDamageThreshold < (-150 : ℝ) ∧
    (checkRewardBasedDamage getDefaultRewardConfig (-150) (-210)).1.shouldTakeDamage
      = true ∧
    checkRewardBasedDamage getDefaultRewardConfig (-150) (-410)
      = ({ shouldTakeDamage := true, damageAmount := 15, shouldDie := true }, -410) ∧
    (checkRewardBasedDamage getDefaultRewardConfig (-150) (-210)).1.damageAmount
      = getDefaultRewardConfig.rewardDamageAmount ∧
    ((checkRewardBasedDamage getDefaultRewardConfig (-150) (-210)).1.shouldDie = true ↔
      (-210 : ℝ) ≤ getDefaultRewardConfig.rewardDamageThreshold * 2) := by
  have h := claim_C8_reward_damage getDefaultRewardConfig (-150) (-210)
  have hdmg : (checkRewardBasedDamage getDefaultRewardConfig
      (-150) (-210)).1.shouldTakeDamage = true := by
    rw [h.2.2.2.1]
  obtain ⟨hamt, hdie⟩ := h.2.2.1 hdmg
  exact ⟨by norm_num [getDefaultRewardConfig], hdmg,
    (claim_C8_reward_damage getDefaultRewardConfig (-150) (-410)).2.2.2.2 (-150)
      (by norm_num [getDefaultRewardConfig]), hamt, hdie⟩

theorem claim_C10_lidar_zero_reading_witness :
    witnessDrone.lidarReadings[0]? = some (some { angle := 0, distance := 0 }) ∧
    ({ angle := 0, distance := 0 } : LiDARReading).distance = 0 ∧
    (0 : ℕ) < 16 ∧
    (droneStateToVector { witnessDrone with
        lidarReadings := witnessDrone.lidarReadings.set 0 none }
      = droneStateToVector witnessDrone ∧
     (droneStateToVector witnessDrone)[13 + 0]? = some 1 ∧
     ((lidarSlice witnessDrone).map d50)[0]? = some 50 ∧
     ((lidarSlice witnessDrone).map d0)[0]? = some 0) :=
  ⟨rfl, rfl, by decide,
   claim_C10_lidar_zero_reading witnessDrone 0 { angle := 0, distance := 0 }
     rfl rfl (by decide)⟩

/-- Claim C9: a nonempty recording stopped with mission success, total
reward 800, no collisions and a 60 s duration scores quality 1 (≥ 0.9,
inside [0, 1]), meets the default 0.6 threshold, and every frame of the
batch — stamped with that quality — is merged into the demonstration
buffer rather than discarded. -/
theorem claim_C9_demo_quality (st : ImitationLearning) (now : ℝ)
    (hrec : st.config.recordingMode = true)
    (hne : st.currentRecording ≠ [])
    (hthr : st.config.qualityThreshold = 0.6)
    (hdur : now - st.recordingStartTime = 60000)
    (hcap : st.config.demonstrationBuffer.length + st.currentRecording.length
      ≤ st.config.maxDemonstrations) :
    calculateDemonstrationQuality true 800 0 60000 = 1 ∧
    (0.9 : ℝ) ≤ calculateDemonstrationQuality true 800 0 60000 ∧
    (0 : ℝ) ≤ calculateDemonstrationQuality true 800 0 60000 ∧
    calculateDemonstrationQuality true 800 0 60000 ≤ 1 ∧
    st.config.qualityThreshold ≤ calculateDemonstrationQuality true 800 0 60000 ∧
    (st.stopRecording true 800 0 now).currentRecording = [] ∧
    ∀ demo ∈ st.currentRecording,
      { demo with quality := calculateDemonstrationQuality true 800 0 60000 }
        ∈ (st.stopRecording true 800 0 now).config.demonstrationBuffer := by
  have hq : calculateDemonstrationQuality true 800 0 60000 = 1 := by
    unfold calculateDemonstrationQuality
    rw [if_pos rfl, if_pos (by norm_num : (0 : ℝ) < 800),
      min_eq_right (by norm_num : (0.3 : ℝ) ≤ 800 / 1000),
      max_eq_right (by norm_num : (0 : ℝ) ≤ (120000 - 60000) / 120000 * 0.2),
      min_eq_left (by norm_num), max_eq_right (by norm_num)]
  have hpass : st.config.qualityThreshold
      ≤ calculateDemonstrationQuality true 800 0 60000 := by
    rw [hthr, hq]
    norm_num
  have hnotskip : ¬ (st.config.recordingMode = false ∨ st.currentRecording.length = 0) := by
    rw [hrec]
    simp [List.length_eq_zero, hne]
  have hstop : st.stopRecording true 800 0 now = { st with
      config :=
        { st.config with
          recordingMode := false,
          demonstrationBuffer := addDemonstrations st.config.demonstrationBuffer
            st.config.maxDemonstrations
            (st.currentRecording.map (fun demo =>
              { demo with quality := calculateDemonstrationQuality true 800 0 60000 })) },
      currentRecording := [] } := by
    unfold ImitationLearning.stopRecording
    rw [if_neg hnotskip, hdur, if_pos hpass]
  refine ⟨hq, by rw [hq]; norm_num, by rw [hq]; norm_num, by rw [hq],
    hpass, by rw [hstop], ?_⟩
  intro demo hdemo
  rw [hstop]
  show _ ∈ addDemonstrations st.config.demonstrationBuffer st.config.maxDemonstrations _
  unfold addDemonstrations
  rw [if_neg (by
    simp only [List.length_append, List.length_map]
    omega)]
  refine (List.mergeSort_perm _ _).mem_iff.mpr ?_
  exact List.mem_append_right _ (List.mem_map_of_mem _ hdemo)

theorem claim_C9_demo_quality_witness :
    witnessImitation.config.recordingMode = true ∧
    witnessImitation.currentRecording ≠ [] ∧
    witnessImitation.config.qualityThreshold = 0.6 ∧
    (60000 : ℝ) - witnessImitation.recordingStartTime = 60000 ∧
    witnessImitation.config.demonstrationBuffer.length
        + witnessImitation.currentRecording.length
      ≤ witnessImitation.config.maxDemonstrations ∧
    (calculateDemonstrationQuality true 800 0 60000 = 1 ∧
     (0.9 : ℝ) ≤ calculateDemonstrationQuality true 800 0 60000 ∧
     (0 : ℝ) ≤ calculateDemonstrationQuality true 800 0 60000 ∧
     calculateDemonstrationQuality true 800 0 60000 ≤ 1 ∧
     witnessImitation.config.qualityThreshold
       ≤ calculateDemonstrationQuality true 800 0 60000 ∧
     (witnessImitation.stopRecording true 800 0 60000).currentRecording = [] ∧
     ∀ demo ∈ witnessImitation.currentRecording,
       { demo with quality := calculateDemonstrationQuality true 800 0 60000 }
         ∈ (witnessImitation.stopRecording true 800 0 60000).config.demonstrationBuffer) :=
  ⟨rfl, by simp [witnessImitation], rfl, by norm_num [witnessImitation], by decide,
   claim_C9_demo_quality witnessImitation 60000 rfl (by simp [witnessImitation]) rfl
     (by norm_num [witnessImitation]) (by decide)⟩

end

end DroneRL
